import Mathlib

/-!
Shallow embedding of `src/server/src/ipc_bench.cc`, an L4 IPC round-trip
benchmark.  Thread 1 (the initiator, `thread1_fn`) performs `BENCH_SIZE`
timed `l4_ipc_call` round trips, accumulating per-trial elapsed time into
`ts_total` and per-attempt cycle deltas into `tsc_sum`; transport errors
decrement the (unsigned) loop counter so the iteration is retried.  Thread 2
(the responder, `thread2_fn`) loops forever answering each request with the
current monotonic timestamp.  `main` creates the responder, tries to migrate
it to CPU 1, and then runs the initiator in the main thread.

Machine integers are modelled over `Nat`/`Int` with explicit reductions
modulo `2^32` (the `unsigned` loop counter) and `2^64` (the
`unsigned long long` cycle counter) where the C code can wrap.  C's
truncating division and remainder on signed integers are `Int.tdiv` and
`Int.tmod`.
-/

namespace IpcBench

/-- The constant `BENCH_SIZE` from `thread1_fn`: number of successful trials. -/
def BENCH_SIZE : Nat := 100000

/-- Modulus of the C `unsigned int` loop counter `i`. -/
def UINT_MOD : Nat := 4294967296

/-- Modulus of the C `unsigned long long` cycle counter values. -/
def ULL_MOD : Nat := 18446744073709551616

/-- A `struct timespec`: seconds and nanoseconds, both signed integers. -/
structure Timespec where
  tv_sec : Int
  tv_nsec : Int
deriving Repr, DecidableEq

/-- Everything the environment supplies to one iteration of the initiator
loop: the timestamp taken before the IPC (`tp`), the cycle-counter readings
around the call (`tsc_start` and the second `rdtsc`), the transport error
code returned by `l4_ipc_error`, and the reply timestamp found in message
registers 0 and 1 after the call. -/
structure Attempt where
  send : Timespec
  c_start : Nat
  c_end : Nat
  ipc_error : Nat
  reply : Timespec
deriving Repr, DecidableEq

/-- The initiator's mutable state across loop iterations: the unsigned loop
counter `i`, the accumulator `ts_total`, the cycle accumulator `tsc_sum`,
and the two message-register words it resets at the end of each iteration. -/
structure LoopState where
  i : Nat
  ts_total : Timespec
  tsc_sum : Nat
  mr0 : Int
  mr1 : Int
deriving Repr, DecidableEq

/-- The value of `__builtin_ia32_rdtsc () - tsc_start` under `unsigned long
long` (wraparound) arithmetic. -/
def cyclesElapsed (c_start c_end : Nat) : Nat :=
  (ULL_MOD + c_end % ULL_MOD - c_start % ULL_MOD) % ULL_MOD

/-- The per-trial contribution the success branch of `thread1_fn` adds to
`ts_total` (lines 64-71 of `ipc_bench.cc`): when `tp.tv_nsec > mr[1]` the
code adds `mr[0] + 1 - tp.tv_sec` seconds and `mr[1] + 1000000000 -
tp.tv_nsec` nanoseconds, otherwise it adds the plain field differences.
`send` is `tp`, `reply` is `(mr[0], mr[1])`. -/
def elapsedContribution (send reply : Timespec) : Timespec :=
  if reply.tv_nsec < send.tv_nsec then
    ⟨reply.tv_sec + 1 - send.tv_sec, reply.tv_nsec + 1000000000 - send.tv_nsec⟩
  else
    ⟨reply.tv_sec - send.tv_sec, reply.tv_nsec - send.tv_nsec⟩

/-- Written from the specification's words, for comparison with
`elapsedContribution`: wraparound-aware subtraction in which a nanosecond
underflow borrows one second from the seconds difference (reply seconds
minus send seconds minus one) and adds `1000000000` to the nanosecond
difference. -/
def specElapsedDiff (send reply : Timespec) : Timespec :=
  if reply.tv_nsec < send.tv_nsec then
    ⟨reply.tv_sec - send.tv_sec - 1, reply.tv_nsec + 1000000000 - send.tv_nsec⟩
  else
    ⟨reply.tv_sec - send.tv_sec, reply.tv_nsec - send.tv_nsec⟩

/-- One iteration body of the initiator loop, without the `++i` of the
`for` statement: accumulate the cycle delta unconditionally; on transport
error decrement the unsigned counter (wrapping modulo `2^32`) and leave
`ts_total` alone; on success add `elapsedContribution`; in either case the
iteration ends by resetting both message registers to zero. -/
def loopBody (s : LoopState) (a : Attempt) : LoopState :=
  let tsc_sum := (s.tsc_sum + cyclesElapsed a.c_start a.c_end) % ULL_MOD
  if a.ipc_error ≠ 0 then
    { i := (s.i + (UINT_MOD - 1)) % UINT_MOD
      ts_total := s.ts_total
      tsc_sum := tsc_sum
      mr0 := 0
      mr1 := 0 }
  else
    let d := elapsedContribution a.send a.reply
    { i := s.i
      ts_total := ⟨s.ts_total.tv_sec + d.tv_sec, s.ts_total.tv_nsec + d.tv_nsec⟩
      tsc_sum := tsc_sum
      mr0 := 0
      mr1 := 0 }

/-- A full `for`-loop iteration: the body followed by the unsigned `++i`. -/
def stepIter (s : LoopState) (a : Attempt) : LoopState :=
  let t := loopBody s a
  { t with i := (t.i + 1) % UINT_MOD }

/-- The initiator loop run against a finite stream of attempt outcomes:
while `i < BENCH_SIZE` and input remains, consume one attempt and continue;
once the guard fails the loop exits and the state is final. -/
def runFrom (s : LoopState) : List Attempt → LoopState
  | [] => s
  | a :: rest => if s.i < BENCH_SIZE then runFrom (stepIter s a) rest else s

/-- The initiator's state on entry to the loop: `i = 0`, `ts_total`
zeroed, `tsc_sum = 0` (message registers taken as zero). -/
def initState : LoopState := ⟨0, ⟨0, 0⟩, 0, 0, 0⟩

/-- One logical trial of the benchmark: the errored attempts that precede
the attempt that finally succeeds. -/
structure Trial where
  errs : List Attempt
  succ : Attempt
deriving Repr, DecidableEq

/-- The attempt stream of one trial: its errors followed by its success. -/
def Trial.attempts (t : Trial) : List Attempt := t.errs ++ [t.succ]

/-- Well-formedness of a trial: every preceding attempt reports a nonzero
transport error and the final attempt reports none. -/
def Trial.wf (t : Trial) : Prop :=
  (∀ a ∈ t.errs, a.ipc_error ≠ 0) ∧ t.succ.ipc_error = 0

/-- The flattened attempt stream of a list of trials. -/
def trialsAttempts : List Trial → List Attempt
  | [] => []
  | t :: ts => Trial.attempts t ++ trialsAttempts ts

/-- The average line printed at the end of `thread1_fn` (lines 80-85),
as the pair (seconds field, nanoseconds field) handed to `printf`:
`seconds_as_ns / 1000000000 / BENCH_SIZE` and
`(ts_total.tv_nsec + seconds_as_ns % 1000000000) / BENCH_SIZE`, where
`seconds_as_ns = ts_total.tv_sec * 1000000000`.  C division and remainder
on signed operands truncate toward zero (`Int.tdiv` / `Int.tmod`). -/
def avgPrinted (t : Timespec) : Int × Int :=
  let seconds_as_ns := t.tv_sec * 1000000000
  (Int.tdiv (Int.tdiv seconds_as_ns 1000000000) (BENCH_SIZE : Int),
   Int.tdiv (t.tv_nsec + Int.tmod seconds_as_ns 1000000000) (BENCH_SIZE : Int))

/-- Written from the specification's words, for comparison with
`avgPrinted`: the exact total duration in nanoseconds divided by
`BENCH_SIZE`, rendered as whole seconds plus a sub-second nanosecond
remainder in `[0, 1000000000)`. -/
def specAvgNormalized (t : Timespec) : Int × Int :=
  let avg := Int.tdiv (t.tv_sec * 1000000000 + t.tv_nsec) (BENCH_SIZE : Int)
  (Int.tdiv avg 1000000000, Int.tmod avg 1000000000)

/-- An L4 IPC timeout specification; the program only ever uses
`L4_IPC_NEVER`. -/
inductive L4Timeout where
  | never
deriving Repr, DecidableEq

/-- What one wake-up of the responder loop does before it next blocks:
either it logs the transport error and re-enters a plain `l4_ipc_wait`
with the given timeout and no reply, or it performs
`l4_ipc_reply_and_wait` with the given word count, the two message-register
words it wrote, and the given timeout. -/
inductive Thread2Event where
  | droppedAndWait (code : Nat) (timeout : L4Timeout)
  | repliedAndWait (words : Nat) (w0 w1 : Int) (timeout : L4Timeout)
deriving Repr, DecidableEq

/-- What the environment supplies to one wake-up of the responder loop:
the transport error code of the tag it woke up with, and the monotonic
time `clock_gettime` would return now. -/
structure Thread2Input where
  ipc_error : Nat
  now : Timespec
deriving Repr, DecidableEq

/-- One wake-up of the responder loop (`thread2_fn`, lines 91-124): a
nonzero error is logged and dropped, re-entering `l4_ipc_wait` with
`L4_IPC_NEVER`; otherwise the current time's seconds and nanoseconds are
written into message registers 0 and 1 and sent by
`l4_ipc_reply_and_wait` with `l4_msgtag(0, 2, 0, 0)` (two payload words)
and `L4_IPC_NEVER`. -/
def thread2Handle (inp : Thread2Input) : Thread2Event :=
  if inp.ipc_error ≠ 0 then
    Thread2Event.droppedAndWait inp.ipc_error L4Timeout.never
  else
    Thread2Event.repliedAndWait 2 inp.now.tv_sec inp.now.tv_nsec L4Timeout.never

/-- The responder's `while (1)` loop run against a finite stream of
wake-ups: every wake-up is handled and the loop re-enters a wait; there is
no exit path. -/
def thread2Run : List Thread2Input → List Thread2Event
  | [] => []
  | inp :: rest => thread2Handle inp :: thread2Run rest

/-- Observable events of `main`: the three messages it can print and
whether the initiator benchmark (`thread1_fn`) was run. -/
inductive MainEvent where
  | createFailedMsg
  | migrateErrorMsg
  | migratedMsg
  | benchmarkRun
deriving Repr, DecidableEq

/-- What the environment decides for `main`: the return value of
`pthread_create` (nonzero means failure) and the `l4_error` result of the
scheduler's `run_thread` placement request (nonzero means failure). -/
structure MainEnv where
  create_err : Int
  place_err : Int
deriving Repr, DecidableEq

/-- The bootstrap `main` (lines 127-152): on `pthread_create` failure it
prints an error and returns 1 without running the benchmark; otherwise it
submits the placement request, prints the migration-error message exactly
when that request failed, always prints the `Migrated Thread` message,
runs `thread1_fn`, and returns 0.  The result is the ordered event list
and the process exit status. -/
def mainRun (env : MainEnv) : List MainEvent × Int :=
  if env.create_err ≠ 0 then
    ([MainEvent.createFailedMsg], 1)
  else
    ((if env.place_err ≠ 0 then [MainEvent.migrateErrorMsg] else []) ++
       [MainEvent.migratedMsg, MainEvent.benchmarkRun], 0)

/-- A concrete attempt that succeeds instantly (used in concrete
instantiations of the loop theorems). -/
def okAttempt : Attempt := ⟨⟨0, 0⟩, 0, 0, 0, ⟨0, 0⟩⟩

/-- A concrete attempt that reports transport error `1`. -/
def errAttempt : Attempt := ⟨⟨0, 0⟩, 0, 0, 1, ⟨0, 0⟩⟩

/-- A concrete trial with no errors. -/
def okTrial : Trial := ⟨[], okAttempt⟩

/-- A concrete trial with one error before its success. -/
def retryTrial : Trial := ⟨[errAttempt], okAttempt⟩

/-! ### Helper lemmas about one initiator iteration -/

theorem stepIter_err_i (s : LoopState) (a : Attempt) (h : a.ipc_error ≠ 0)
    (hi : s.i < UINT_MOD) : (stepIter s a).i = s.i := by
  unfold stepIter loopBody
  simp [h]
  simp only [UINT_MOD] at hi ⊢
  omega

theorem stepIter_err_ts (s : LoopState) (a : Attempt) (h : a.ipc_error ≠ 0) :
    (stepIter s a).ts_total = s.ts_total := by
  unfold stepIter loopBody
  simp [h]

theorem stepIter_ok_i (s : LoopState) (a : Attempt) (h : a.ipc_error = 0)
    (hi : s.i + 1 < UINT_MOD) : (stepIter s a).i = s.i + 1 := by
  unfold stepIter loopBody
  simp [h]
  simp only [UINT_MOD] at hi ⊢
  omega

theorem stepIter_ok_ts (s : LoopState) (a : Attempt) (h : a.ipc_error = 0) :
    (stepIter s a).ts_total
      = ⟨s.ts_total.tv_sec + (elapsedContribution a.send a.reply).tv_sec,
         s.ts_total.tv_nsec + (elapsedContribution a.send a.reply).tv_nsec⟩ := by
  unfold stepIter loopBody
  simp [h]

/-! ### Helper lemmas about the initiator loop -/

theorem runFrom_nil (s : LoopState) : runFrom s [] = s := rfl

theorem runFrom_cons_true (s : LoopState) (a : Attempt) (l : List Attempt)
    (h : s.i < BENCH_SIZE) : runFrom s (a :: l) = runFrom (stepIter s a) l := by
  show (if s.i < BENCH_SIZE then runFrom (stepIter s a) l else s) = runFrom (stepIter s a) l
  simp [h]

theorem runFrom_stuck (s : LoopState) (h : ¬ s.i < BENCH_SIZE) :
    ∀ l, runFrom s l = s := by
  intro l
  cases l with
  | nil => rfl
  | cons a r =>
    show (if s.i < BENCH_SIZE then runFrom (stepIter s a) r else s) = s
    simp [h]

theorem runFrom_append (l1 l2 : List Attempt) : ∀ s : LoopState,
    runFrom s (l1 ++ l2) = runFrom (runFrom s l1) l2 := by
  induction l1 with
  | nil =>
    intro s
    rfl
  | cons a r ih =>
    intro s
    by_cases h : s.i < BENCH_SIZE
    · rw [List.cons_append, runFrom_cons_true s a (r ++ l2) h,
        runFrom_cons_true s a r h, ih]
    · simp only [runFrom_stuck s h]

theorem runFrom_errs (errs : List Attempt) : ∀ s : LoopState,
    (∀ a ∈ errs, a.ipc_error ≠ 0) → s.i < BENCH_SIZE →
    (runFrom s errs).i = s.i ∧ (runFrom s errs).ts_total = s.ts_total := by
  induction errs with
  | nil =>
    intro s _ _
    exact ⟨rfl, rfl⟩
  | cons a r ih =>
    intro s he hi
    have ha : a.ipc_error ≠ 0 := he a (List.mem_cons_self a r)
    have hiu : s.i < UINT_MOD := by
      have : BENCH_SIZE < UINT_MOD := by norm_num [BENCH_SIZE, UINT_MOD]
      omega
    have h1 : (stepIter s a).i = s.i := stepIter_err_i s a ha hiu
    have h2 : (stepIter s a).ts_total = s.ts_total := stepIter_err_ts s a ha
    rw [runFrom_cons_true s a r hi]
    have hrec := ih (stepIter s a) (fun x hx => he x (List.mem_cons_of_mem a hx))
      (by rw [h1]; exact hi)
    exact ⟨hrec.1.trans h1, hrec.2.trans h2⟩

theorem runFrom_trial (t : Trial) (s : LoopState) (hw : Trial.wf t)
    (hi : s.i < BENCH_SIZE) :
    (runFrom s (Trial.attempts t)).i = s.i + 1 ∧
    (runFrom s (Trial.attempts t)).ts_total.tv_sec
      = s.ts_total.tv_sec + (elapsedContribution t.succ.send t.succ.reply).tv_sec ∧
    (runFrom s (Trial.attempts t)).ts_total.tv_nsec
      = s.ts_total.tv_nsec + (elapsedContribution t.succ.send t.succ.reply).tv_nsec := by
  obtain ⟨he, hs⟩ := hw
  unfold Trial.attempts
  rw [runFrom_append]
  obtain ⟨hi1, hts1⟩ := runFrom_errs t.errs s he hi
  have hmi : (runFrom s t.errs).i < BENCH_SIZE := by rw [hi1]; exact hi
  rw [runFrom_cons_true (runFrom s t.errs) t.succ [] hmi, runFrom_nil]
  have hiu : (runFrom s t.errs).i + 1 < UINT_MOD := by
    have : BENCH_SIZE < UINT_MOD := by norm_num [BENCH_SIZE, UINT_MOD]
    omega
  refine ⟨?_, ?_, ?_⟩
  · rw [stepIter_ok_i (runFrom s t.errs) t.succ hs hiu, hi1]
  · rw [stepIter_ok_ts (runFrom s t.errs) t.succ hs]
    simp [hts1]
  · rw [stepIter_ok_ts (runFrom s t.errs) t.succ hs]
    simp [hts1]

theorem runFrom_trials (ts : List Trial) : ∀ s : LoopState,
    (∀ t ∈ ts, Trial.wf t) → s.i + ts.length ≤ BENCH_SIZE →
    (runFrom s (trialsAttempts ts)).i = s.i + ts.length ∧
    (runFrom s (trialsAttempts ts)).ts_total.tv_sec
      = s.ts_total.tv_sec
        + (ts.map (fun t => (elapsedContribution t.succ.send t.succ.reply).tv_sec)).sum ∧
    (runFrom s (trialsAttempts ts)).ts_total.tv_nsec
      = s.ts_total.tv_nsec
        + (ts.map (fun t => (elapsedContribution t.succ.send t.succ.reply).tv_nsec)).sum := by
  induction ts with
  | nil =>
    intro s _ _
    simp [trialsAttempts, runFrom_nil]
  | cons t rest ih =>
    intro s hw hlen
    have hi : s.i < BENCH_SIZE := by
      simp only [List.length_cons] at hlen
      omega
    unfold trialsAttempts
    rw [runFrom_append]
    obtain ⟨h1, h2, h3⟩ := runFrom_trial t s (hw t (List.mem_cons_self t rest)) hi
    have hrec := ih (runFrom s (Trial.attempts t))
      (fun x hx => hw x (List.mem_cons_of_mem t hx))
      (by rw [h1]; simp only [List.length_cons] at hlen; omega)
    refine ⟨?_, ?_, ?_⟩
    · rw [hrec.1, h1]
      simp only [List.length_cons]
      omega
    · rw [hrec.2.1, h2]
      simp only [List.map_cons, List.sum_cons]
      omega
    · rw [hrec.2.2, h3]
      simp only [List.map_cons, List.sum_cons]
      omega

/-! ### Claim theorems -/

/-- C1: the claim states that when the reply nanosecond field is strictly
below the send nanosecond field the code borrows one second, adding reply
seconds minus send seconds minus one.  The code instead adds
`mr[0] + 1 - tp.tv_sec`, i.e. reply seconds minus send seconds PLUS one.
At send `(0 s, 600000000 ns)` and reply `(1 s, 100000000 ns)` the success
branch adds `(2 s, 500000000 ns)` — two seconds more than the borrowed
difference `(0 s, 500000000 ns)` demanded by the specification, and two
seconds more than the true elapsed time of half a second. -/
theorem ipc_c1_borrow_adds_two_seconds :
    elapsedContribution ⟨0, 600000000⟩ ⟨1, 100000000⟩ = ⟨2, 500000000⟩ ∧
    specElapsedDiff ⟨0, 600000000⟩ ⟨1, 100000000⟩ = ⟨0, 500000000⟩ ∧
    elapsedContribution ⟨0, 600000000⟩ ⟨1, 100000000⟩
      ≠ specElapsedDiff ⟨0, 600000000⟩ ⟨1, 100000000⟩ := by
  refine ⟨?_, ?_, ?_⟩ <;> decide

/-- C2: the claim states that the printed average equals the exact total
duration in nanoseconds divided by `BENCH_SIZE`, normalized to whole
seconds plus a sub-second remainder.  The code's nanosecond term uses
`seconds_as_ns % 1000000000`, which is identically zero, so the sub-second
part of the whole-second average is dropped: at total `(3 s, 0 ns)` the
code prints `(0 s, 0 ns)` while the exact normalized average of
`3000000000 ns / 100000` is `(0 s, 30000 ns)`. -/
theorem ipc_c2_average_drops_sub_second_carry :
    avgPrinted ⟨3, 0⟩ = (0, 0) ∧
    specAvgNormalized ⟨3, 0⟩ = (0, 30000) ∧
    avgPrinted ⟨3, 0⟩ ≠ specAvgNormalized ⟨3, 0⟩ := by
  refine ⟨?_, ?_, ?_⟩ <;> decide

/-- C3: for every sequence of trials in which each trial eventually
succeeds after finitely many transport errors, running the initiator loop
over the flattened attempt stream ends with the loop counter equal to
`BENCH_SIZE` (the loop guard is false, so it terminates), and
`total_elapsed_time` holds exactly the sum of the `BENCH_SIZE` successful
per-trial contributions — errors are retried and contribute nothing to
the accumulator, no matter how many precede each success. -/
theorem ipc_c3_retry_completeness (ts : List Trial)
    (hlen : ts.length = BENCH_SIZE) (hwf : ∀ t ∈ ts, Trial.wf t) :
    (runFrom initState (trialsAttempts ts)).i = BENCH_SIZE ∧
    (runFrom initState (trialsAttempts ts)).ts_total.tv_sec
      = (ts.map (fun t => (elapsedContribution t.succ.send t.succ.reply).tv_sec)).sum ∧
    (runFrom initState (trialsAttempts ts)).ts_total.tv_nsec
      = (ts.map (fun t => (elapsedContribution t.succ.send t.succ.reply).tv_nsec)).sum ∧
    ∀ more : List Attempt,
      runFrom (runFrom initState (trialsAttempts ts)) more
        = runFrom initState (trialsAttempts ts) := by
  have h := runFrom_trials ts initState hwf (by simp [initState, hlen])
  have hi : (runFrom initState (trialsAttempts ts)).i = BENCH_SIZE := by
    rw [h.1, hlen]
    simp [initState]
  refine ⟨hi, ?_, ?_, ?_⟩
  · rw [h.2.1]
    simp [initState]
  · rw [h.2.2]
    simp [initState]
  · intro more
    exact runFrom_stuck _ (by rw [hi]; omega) more

/-- Witness for C3 at the concrete trial list of `BENCH_SIZE` error-free
trials. -/
theorem ipc_c3_retry_completeness_witness :
    (runFrom initState (trialsAttempts (List.replicate BENCH_SIZE okTrial))).i = BENCH_SIZE ∧
    (runFrom initState (trialsAttempts (List.replicate BENCH_SIZE okTrial))).ts_total.tv_sec
      = ((List.replicate BENCH_SIZE okTrial).map
          (fun t => (elapsedContribution t.succ.send t.succ.reply).tv_sec)).sum ∧
    (runFrom initState (trialsAttempts (List.replicate BENCH_SIZE okTrial))).ts_total.tv_nsec
      = ((List.replicate BENCH_SIZE okTrial).map
          (fun t => (elapsedContribution t.succ.send t.succ.reply).tv_nsec)).sum ∧
    runFrom (runFrom initState (trialsAttempts (List.replicate BENCH_SIZE okTrial))) [errAttempt]
      = runFrom initState (trialsAttempts (List.replicate BENCH_SIZE okTrial)) := by
  obtain ⟨h1, h2, h3, h4⟩ := ipc_c3_retry_completeness (List.replicate BENCH_SIZE okTrial)
    (by simp)
    (by
      intro t ht
      rw [List.eq_of_mem_replicate ht]
      exact ⟨by intro a ha; simp [okTrial] at ha, rfl⟩)
  exact ⟨h1, h2, h3, h4 [errAttempt]⟩

/-- C4: every attempt, failed or not, adds its (wraparound) cycle delta to
`tsc_sum`; and an attempt whose transport error code is nonzero leaves
both fields of `total_elapsed_time` unchanged. -/
theorem ipc_c4_cycles_always_elapsed_framed (s : LoopState) (a : Attempt) :
    (stepIter s a).tsc_sum = (s.tsc_sum + cyclesElapsed a.c_start a.c_end) % ULL_MOD ∧
    (a.ipc_error ≠ 0 →
      (stepIter s a).ts_total.tv_sec = s.ts_total.tv_sec ∧
      (stepIter s a).ts_total.tv_nsec = s.ts_total.tv_nsec) := by
  constructor
  · unfold stepIter loopBody
    split <;> rfl
  · intro h
    rw [stepIter_err_ts s a h]
    exact ⟨rfl, rfl⟩

/-- Witness for C4 at the initial state and an attempt with error code 1. -/
theorem ipc_c4_cycles_always_elapsed_framed_witness :
    (stepIter initState errAttempt).tsc_sum
      = (initState.tsc_sum + cyclesElapsed errAttempt.c_start errAttempt.c_end) % ULL_MOD ∧
    (stepIter initState errAttempt).ts_total.tv_sec = initState.ts_total.tv_sec ∧
    (stepIter initState errAttempt).ts_total.tv_nsec = initState.ts_total.tv_nsec :=
  ⟨(ipc_c4_cycles_always_elapsed_framed initState errAttempt).1,
   (ipc_c4_cycles_always_elapsed_framed initState errAttempt).2 (by decide)⟩

/-- C5: whenever the timestamps come from a monotonic clock (reply not
earlier than send, both nanosecond fields in `[0, 1000000000)`), the
per-trial value the success branch adds to `total_elapsed_time` is
non-negative: both fields of the contribution and their combined
seconds-plus-nanoseconds total are non-negative. -/
theorem ipc_c5_elapsed_nonneg (send reply : Timespec)
    (h1 : 0 ≤ send.tv_nsec) (h2 : send.tv_nsec < 1000000000)
    (h3 : 0 ≤ reply.tv_nsec) (h4 : reply.tv_nsec < 1000000000)
    (h5 : send.tv_sec * 1000000000 + send.tv_nsec
            ≤ reply.tv_sec * 1000000000 + reply.tv_nsec) :
    0 ≤ (elapsedContribution send reply).tv_sec * 1000000000
          + (elapsedContribution send reply).tv_nsec ∧
    0 ≤ (elapsedContribution send reply).tv_sec ∧
    0 ≤ (elapsedContribution send reply).tv_nsec := by
  by_cases h : reply.tv_nsec < send.tv_nsec <;> simp [elapsedContribution, h] <;> omega

/-- Witness for C5 at send `(1 s, 200000000 ns)` and reply
`(1 s, 300000000 ns)`. -/
theorem ipc_c5_elapsed_nonneg_witness :
    0 ≤ (elapsedContribution ⟨1, 200000000⟩ ⟨1, 300000000⟩).tv_sec * 1000000000
          + (elapsedContribution ⟨1, 200000000⟩ ⟨1, 300000000⟩).tv_nsec ∧
    0 ≤ (elapsedContribution ⟨1, 200000000⟩ ⟨1, 300000000⟩).tv_sec ∧
    0 ≤ (elapsedContribution ⟨1, 200000000⟩ ⟨1, 300000000⟩).tv_nsec :=
  ipc_c5_elapsed_nonneg ⟨1, 200000000⟩ ⟨1, 300000000⟩
    (by decide) (by decide) (by decide) (by decide) (by decide)

/-- C6: every full iteration of the initiator loop — error or success —
ends with both message-register words reset to the zero sentinel before
the next iteration begins. -/
theorem ipc_c6_mr_sentinel_reset (s : LoopState) (a : Attempt) :
    (stepIter s a).mr0 = 0 ∧ (stepIter s a).mr1 = 0 := by
  unfold stepIter loopBody
  split <;> exact ⟨rfl, rfl⟩

/-- C7: on each wake-up the responder drops errored requests — logging the
code and re-entering a plain wait with no timeout, sending no reply — and
answers clean requests by writing the current monotonic time's seconds
and nanoseconds into message registers 0 and 1 and issuing a combined
reply-and-wait with no timeout carrying exactly two words; the loop
handles every wake-up and never terminates (the run over any wake-up
stream produces one re-entering event per wake-up). -/
theorem ipc_c7_responder_behavior (inp : Thread2Input) (inputs : List Thread2Input) :
    (inp.ipc_error ≠ 0 →
      thread2Handle inp = Thread2Event.droppedAndWait inp.ipc_error L4Timeout.never) ∧
    (inp.ipc_error = 0 →
      thread2Handle inp
        = Thread2Event.repliedAndWait 2 inp.now.tv_sec inp.now.tv_nsec L4Timeout.never) ∧
    (thread2Run inputs).length = inputs.length := by
  refine ⟨fun h => by simp [thread2Handle, h], fun h => by simp [thread2Handle, h], ?_⟩
  induction inputs with
  | nil => rfl
  | cons x r ih => simp [thread2Run, ih]

/-- Witness for C7 at an errored wake-up (code 6), a clean wake-up at time
`(4 s, 5 ns)`, and a two-element wake-up stream. -/
theorem ipc_c7_responder_behavior_witness :
    thread2Handle ⟨6, ⟨4, 5⟩⟩ = Thread2Event.droppedAndWait 6 L4Timeout.never ∧
    thread2Handle ⟨0, ⟨4, 5⟩⟩ = Thread2Event.repliedAndWait 2 4 5 L4Timeout.never ∧
    (thread2Run [⟨6, ⟨4, 5⟩⟩, ⟨0, ⟨4, 5⟩⟩]).length = 2 :=
  ⟨(ipc_c7_responder_behavior ⟨6, ⟨4, 5⟩⟩ []).1 (by decide),
   (ipc_c7_responder_behavior ⟨0, ⟨4, 5⟩⟩ []).2.1 rfl,
   (ipc_c7_responder_behavior ⟨0, ⟨4, 5⟩⟩ [⟨6, ⟨4, 5⟩⟩, ⟨0, ⟨4, 5⟩⟩]).2.2⟩

/-- C8: when thread creation succeeds, the benchmark runs and the process
exits with status 0 even if the placement request failed (in which case
the migration-error report is also printed); when thread creation itself
fails, `main` reports and returns the non-zero status 1 without running
the benchmark. -/
theorem ipc_c8_placement_failure_nonfatal (env : MainEnv) :
    (env.create_err = 0 →
      MainEvent.benchmarkRun ∈ (mainRun env).1 ∧ (mainRun env).2 = 0 ∧
      (env.place_err ≠ 0 → MainEvent.migrateErrorMsg ∈ (mainRun env).1)) ∧
    (env.create_err ≠ 0 →
      (mainRun env).2 = 1 ∧ MainEvent.createFailedMsg ∈ (mainRun env).1 ∧
      MainEvent.benchmarkRun ∉ (mainRun env).1) := by
  constructor
  · intro h
    refine ⟨?_, ?_, fun hp => ?_⟩
    · simp [mainRun, h]
    · simp [mainRun, h]
    · simp [mainRun, h, hp]
  · intro h
    refine ⟨?_, ?_, ?_⟩ <;> simp [mainRun, h]

/-- Witness for C8: placement fails with creation succeeding (benchmark
still runs, exit 0), and creation failing (exit 1, no benchmark). -/
theorem ipc_c8_placement_failure_nonfatal_witness :
    (MainEvent.benchmarkRun ∈ (mainRun ⟨0, 5⟩).1 ∧ (mainRun ⟨0, 5⟩).2 = 0 ∧
      MainEvent.migrateErrorMsg ∈ (mainRun ⟨0, 5⟩).1) ∧
    ((mainRun ⟨1, 0⟩).2 = 1 ∧ MainEvent.createFailedMsg ∈ (mainRun ⟨1, 0⟩).1 ∧
      MainEvent.benchmarkRun ∉ (mainRun ⟨1, 0⟩).1) := by
  constructor
  · have h := (ipc_c8_placement_failure_nonfatal ⟨0, 5⟩).1 rfl
    exact ⟨h.1, h.2.1, h.2.2 (by decide)⟩
  · exact (ipc_c8_placement_failure_nonfatal ⟨1, 0⟩).2 (by decide)

/-- C9: the loop counter is a 32-bit unsigned integer; a transport error
at counter value 0 makes the decrement wrap to `2^32 - 1` and the loop's
increment wraps it back to 0, and under this modulo-`2^32` arithmetic
retrying still drives the loop to exactly `BENCH_SIZE` successful trials
for any well-formed trial sequence, errors in the first iteration
included. -/
theorem ipc_c9_unsigned_counter_wrap :
    (∀ (s : LoopState) (a : Attempt), a.ipc_error ≠ 0 → s.i = 0 →
      (loopBody s a).i = UINT_MOD - 1 ∧ (stepIter s a).i = 0) ∧
    ∀ (ts : List Trial), ts.length = BENCH_SIZE → (∀ t ∈ ts, Trial.wf t) →
      (runFrom initState (trialsAttempts ts)).i = BENCH_SIZE := by
  constructor
  · intro s a ha hz
    constructor
    · unfold loopBody
      simp [ha, hz]
    · unfold stepIter loopBody
      simp [ha, hz]
      simp only [UINT_MOD]
  · intro ts hlen hwf
    have h := runFrom_trials ts initState hwf (by simp [initState, hlen])
    rw [h.1, hlen]
    simp [initState]

/-- Witness for C9 at the initial state (counter 0) with an errored
attempt, and at `BENCH_SIZE` trials each retried once after an error. -/
theorem ipc_c9_unsigned_counter_wrap_witness :
    ((loopBody initState errAttempt).i = UINT_MOD - 1 ∧
      (stepIter initState errAttempt).i = 0) ∧
    (runFrom initState (trialsAttempts (List.replicate BENCH_SIZE retryTrial))).i
      = BENCH_SIZE :=
  ⟨ipc_c9_unsigned_counter_wrap.1 initState errAttempt (by decide) rfl,
   ipc_c9_unsigned_counter_wrap.2 (List.replicate BENCH_SIZE retryTrial)
    (by simp)
    (by
      intro t ht
      rw [List.eq_of_mem_replicate ht]
      refine ⟨?_, rfl⟩
      intro a ha
      simp [retryTrial] at ha
      rw [ha]
      decide)⟩

/-- C10: after a successful thread creation, `main` prints the
`Migrated Thread ... -> CPU ...` message unconditionally — also when the
placement request failed and the migration-error message was printed —
so the migration message does not imply the responder was pinned. -/
theorem ipc_c10_migrated_message_unconditional (env : MainEnv)
    (h : env.create_err = 0) :
    MainEvent.migratedMsg ∈ (mainRun env).1 ∧
    (env.place_err ≠ 0 →
      MainEvent.migrateErrorMsg ∈ (mainRun env).1 ∧
      MainEvent.migratedMsg ∈ (mainRun env).1) := by
  refine ⟨by simp [mainRun, h], fun hp => ⟨?_, ?_⟩⟩
  · simp [mainRun, h, hp]
  · simp [mainRun, h]

/-- Witness for C10 at an environment whose placement request fails. -/
theorem ipc_c10_migrated_message_unconditional_witness :
    MainEvent.migratedMsg ∈ (mainRun ⟨0, 3⟩).1 ∧
    (MainEvent.migrateErrorMsg ∈ (mainRun ⟨0, 3⟩).1 ∧
      MainEvent.migratedMsg ∈ (mainRun ⟨0, 3⟩).1) :=
  ⟨(ipc_c10_migrated_message_unconditional ⟨0, 3⟩ rfl).1,
   (ipc_c10_migrated_message_unconditional ⟨0, 3⟩ rfl).2 (by decide)⟩

end IpcBench
